import Mathlib

/-!
Shallow embedding of the news-ticker widget (`src/web/ticker.js`) and the
news endpoint of the backend (`src/server/server.js`).

The widget's mutable instance fields become a `TickerState` record; each
method becomes a state-transition function.  DOM effects that the spec talks
about (the rendered ticker list, the offline badge, the selector button's
label, visibility of the content area) are carried as explicit fields of the
state.  Quantities that the browser supplies at run time (the clock
`Date.now()`, the outcome of a `fetch`, the measured half width of the
duplicated track) are passed as explicit arguments.  Pixel positions are
rationals (the source does exact arithmetic with `speed / 60` at 60 fps);
timestamps are integers (epoch milliseconds).
-/

namespace NewsTicker

/-- One news item as served by the backend and consumed by the ticker. -/
structure Headline where
  source : String
  title : String
  url : String
  ts : Int
deriving DecidableEq

/-- The localStorage cache entry `news-ticker-cache`:
`{ headlines, timestamp }` as written by `saveToCache`. -/
structure CacheSnapshot where
  headlines : List Headline
  timestamp : Int
deriving DecidableEq

/-- One `.news-ticker-item` element as built by `renderHeadlines`:
the sanitized source and title, the link target and the relative-age label. -/
structure RenderedItem where
  source : String
  title : String
  url : String
  time : String
deriving DecidableEq

/-- The ticker options relevant to the verified behavior
(`speed` in pixels per second, `maxHeadlines` cap). -/
structure Options where
  speed : ℚ
  maxHeadlines : Nat
deriving DecidableEq

/-- Constructor defaults: `speed: 60`, `maxHeadlines: 50`. -/
def defaultOptions : Options :=
  { speed := 60, maxHeadlines := 50 }

/-- An entry of `this.serviceCycle`. -/
structure ServiceEntry where
  service : String
  label : String
  emoji : String
deriving DecidableEq

/-- The fixed cycling order set up in `setupServiceSelector`. -/
def serviceCycle : List ServiceEntry :=
  [ { service := "sports", label := "Sports", emoji := "⚽" },
    { service := "local", label := "Local", emoji := "🏠" },
    { service := "news", label := "News", emoji := "📰" },
    { service := "weather", label := "Weather", emoji := "🌤️" },
    { service := "tweets", label := "Tweets", emoji := "🐦" } ]

/-- Out-of-range indexing of `serviceCycle` yields `undefined` in the source;
the embedding uses this placeholder as the `getD` default (never reached:
every index written is reduced `% serviceCycle.length`). -/
def undefinedService : ServiceEntry :=
  { service := "", label := "", emoji := "" }

/-- The mutable fields of a `NewsTicker` instance together with the DOM
state the spec's claims observe. -/
structure TickerState where
  options : Options
  /-- `this.headlines` -/
  headlines : List Headline
  /-- `this.isPaused` -/
  isPaused : Bool
  /-- whether a scheduled animation step is pending (`this.animationId` live) -/
  animationLive : Bool
  /-- `this.currentPosition` in pixels -/
  currentPosition : ℚ
  /-- `this.lastUpdate` -/
  lastUpdate : Int
  /-- `this.offlineMode` -/
  offlineMode : Bool
  /-- whether the `.news-ticker-offline` badge is displayed -/
  offlineBadgeShown : Bool
  /-- `this.currentServiceIndex` -/
  currentServiceIndex : Nat
  /-- `this.currentService` -/
  currentService : String
  /-- whether `.news-ticker-content` carries the `hidden` class -/
  contentHidden : Bool
  /-- the selector button's `textContent` -/
  buttonLabel : String
  /-- the selector button's inline border style -/
  buttonBorder : String
  /-- the container's inline background style -/
  containerBackground : String
  /-- the container's inline border style -/
  containerBorder : String
  /-- whether `this.tickerList` is a live element (false before `setupTicker`
  and after `destroy` wipes the container) -/
  tickerListPresent : Bool
  /-- the children of `.news-ticker-list` -/
  renderedItems : List RenderedItem
  /-- the `news-ticker-cache` localStorage entry (`none` when absent) -/
  cache : Option CacheSnapshot
  /-- whether the 5-minute `setInterval` refresh timer is running -/
  refreshTimerLive : Bool
deriving DecidableEq

/-- State right after `init` finished `setupTicker`, `setupServiceSelector`,
`startAnimation` and registered the refresh interval (before any fetch
settles): index 0 / `sports`, button label `Sports`, animation pending,
refresh timer running. -/
def initState (opts : Options) (cache : Option CacheSnapshot) : TickerState :=
  { options := opts
    headlines := []
    isPaused := false
    animationLive := true
    currentPosition := 0
    lastUpdate := 0
    offlineMode := false
    offlineBadgeShown := false
    currentServiceIndex := 0
    currentService := "sports"
    contentHidden := false
    buttonLabel := "Sports"
    buttonBorder := ""
    containerBackground := ""
    containerBorder := ""
    tickerListPresent := true
    renderedItems := []
    cache := cache
    refreshTimerLive := true }

/-- The outcome of one `fetch` of the endpoint, as the `try` block observes
it: a parsed headline array, or any failure (network error, non-2xx status,
JSON parse error) that lands in the `catch`. -/
inductive FetchResult where
  | success (headlines : List Headline)
  | failure
deriving DecidableEq

/-- `sanitizeText`: assigning `textContent` and reading back `innerHTML`
HTML-escapes the markup-significant characters. -/
def escapeChar (c : Char) : String :=
  if c = '&' then "&amp;"
  else if c = '<' then "&lt;"
  else if c = '>' then "&gt;"
  else String.singleton c

/-- `sanitizeText(text)` from `ticker.js`. -/
def sanitizeText (text : String) : String :=
  String.join (text.toList.map escapeChar)

/-- `formatTimeAgo(timestamp)` from `ticker.js`; `now` is `Date.now()`.
`Int.fdiv` is `Math.floor` of the quotient. -/
def formatTimeAgo (now timestamp : Int) : String :=
  let diff := now - timestamp
  let minutes := Int.fdiv diff 60000
  let hours := Int.fdiv diff 3600000
  let days := Int.fdiv diff 86400000
  if minutes < 1 then "now"
  else if minutes < 60 then toString minutes ++ "m ago"
  else if hours < 24 then toString hours ++ "h ago"
  else toString days ++ "d ago"

/-- The `.news-ticker-item` element `renderHeadlines` builds for one
headline. -/
def renderItem (now : Int) (headline : Headline) : RenderedItem :=
  { source := sanitizeText headline.source
    title := sanitizeText headline.title
    url := headline.url
    time := formatTimeAgo now headline.ts }

/-- `renderHeadlines()` from `ticker.js`: early return when the list element
is missing or `headlines` is empty; otherwise rebuild the list as two
back-to-back copies, persist the snapshot (`saveToCache` stamps
`Date.now()`), and reset `currentPosition` to 0. -/
def renderHeadlines (now : Int) (s : TickerState) : TickerState :=
  if !s.tickerListPresent || s.headlines.length == 0 then s
  else
    let headlineElements := s.headlines.map (renderItem now)
    { s with
      renderedItems := headlineElements ++ headlineElements
      cache := some { headlines := s.headlines, timestamp := now }
      currentPosition := 0 }

/-- `loadFromCache()` from `ticker.js`: use the snapshot only when it exists
and is under one hour old (3600000 ms); a corrupt entry throws into the
`catch` and acts like an absent one, which `none` also covers. -/
def loadFromCache (now : Int) (s : TickerState) : TickerState :=
  match s.cache with
  | some data =>
      if now - data.timestamp < 3600000 then
        renderHeadlines now { s with headlines := data.headlines }
      else s
  | none => s

/-- `loadHeadlines()` from `ticker.js`, with the fetch's outcome made
explicit.  Success: truncate to `maxHeadlines` (`slice(0, max)`), clear
offline state, hide the badge, render, record `lastUpdate`.  Failure: set
offline state, show the badge, fall back to the cache. -/
def loadHeadlines (now : Int) (result : FetchResult) (s : TickerState) : TickerState :=
  match result with
  | .success headlines =>
      let s1 := { s with
        headlines := headlines.take s.options.maxHeadlines
        offlineMode := false
        offlineBadgeShown := false }
      let s2 := renderHeadlines now s1
      { s2 with lastUpdate := now }
  | .failure =>
      loadFromCache now { s with offlineMode := true, offlineBadgeShown := true }

/-- `cycleToNextService()` from `ticker.js`: advance the index
`(index + 1) % serviceCycle.length`, update the button label and
`currentService`, then load headlines for the new service (outcome of that
fetch passed explicitly). -/
def cycleToNextService (now : Int) (result : FetchResult) (s : TickerState) : TickerState :=
  let idx := (s.currentServiceIndex + 1) % serviceCycle.length
  let nextService := serviceCycle.getD idx undefinedService
  let s1 := { s with
    currentServiceIndex := idx
    buttonLabel := nextService.label
    currentService := nextService.service }
  loadHeadlines now result s1

/-- `toggleTickerVisibility()` from `ticker.js`. -/
def toggleTickerVisibility (s : TickerState) : TickerState :=
  if s.contentHidden then
    let currentService := serviceCycle.getD s.currentServiceIndex undefinedService
    { s with
      contentHidden := false
      containerBackground := ""
      containerBorder := ""
      buttonLabel := currentService.label
      buttonBorder := "" }
  else
    { s with
      contentHidden := true
      containerBackground := "transparent"
      containerBorder := "none"
      buttonLabel := "📤"
      buttonBorder := "2px solid #8FE04A" }

/-- The `click` handler registered in `setupServiceSelector`: when the
content is hidden, show it back; otherwise cycle to the next service. -/
def handleServiceButtonClick (now : Int) (result : FetchResult) (s : TickerState) : TickerState :=
  if s.contentHidden then toggleTickerVisibility s
  else cycleToNextService now result s

/-- The `dblclick` handler registered in `setupServiceSelector`. -/
def handleServiceButtonDblClick (s : TickerState) : TickerState :=
  toggleTickerVisibility s

/-- One step of the `animate` loop in `startAnimation`, with the measured
half width `tickerList.scrollWidth / 2` passed in: paused steps only
reschedule; otherwise decrement by `speed / 60` and reset to 0 once
`abs(currentPosition) >= tickerWidth`. -/
def animateStep (tickerWidth : ℚ) (s : TickerState) : TickerState :=
  if s.isPaused then s
  else
    let pos := s.currentPosition - s.options.speed / 60
    let pos' := if tickerWidth ≤ |pos| then 0 else pos
    { s with currentPosition := pos' }

/-- `n` consecutive animation steps. -/
def animateSteps (tickerWidth : ℚ) : Nat → TickerState → TickerState
  | 0, s => s
  | n + 1, s => animateSteps tickerWidth n (animateStep tickerWidth s)

/-- `pause()` from `ticker.js`. -/
def pause (s : TickerState) : TickerState :=
  { s with isPaused := true }

/-- `resume()` from `ticker.js`. -/
def resume (s : TickerState) : TickerState :=
  { s with isPaused := false }

/-- `destroy()` from `ticker.js`: `cancelAnimationFrame` on the pending
step, then wipe the container's HTML.  The `setInterval` handle created in
`init` was never stored, so no `clearInterval` happens and
`refreshTimerLive` is untouched. -/
def destroy (s : TickerState) : TickerState :=
  { s with
    animationLive := false
    tickerListPresent := false
    renderedItems := [] }

end NewsTicker

namespace NewsServer

open NewsTicker (Headline)

/-- The `switch (service)` filename mapping in `app.get` of `server.js`. -/
def sourceFileFor (service : String) : String :=
  if service = "local" then "news-local.txt"
  else if service = "sports" then "news-sports.txt"
  else if service = "weather" then "news-weather.txt"
  else if service = "tweets" then "news-tweets.txt"
  else "news.txt"

/-- JavaScript `String.prototype.includes`: contiguous substring test. -/
def strIncludes (s pat : String) : Bool :=
  decide (List.IsInfix pat.toList s.toList)

/-- The predicate of the `headlines.filter` in `server.js`, for a
lower-cased query `query`: title or source contains it case-insensitively. -/
def matchesQuery (query : String) (h : Headline) : Bool :=
  strIncludes h.title.toLower query.toLower || strIncludes h.source.toLower query.toLower

/-- The `/api/news` handler of `server.js`, with I/O made explicit:
`sources` maps a source filename to its parsed headlines (`none` when
loading that file throws, which falls back to the main news list
`mainNews`); `serviceParam` and `qParam` are the query parameters (an empty
`q` is falsy in the `if (req.query.q)` guard, so it applies no filter). -/
def handleNewsRequest (serviceParam qParam : Option String)
    (sources : String → Option (List Headline)) (mainNews : List Headline) :
    List Headline :=
  let service := serviceParam.getD "news"
  let sourceFile := sourceFileFor service
  let headlines := (sources sourceFile).getD mainNews
  match qParam with
  | some q => if q = "" then headlines else headlines.filter (matchesQuery q)
  | none => headlines

end NewsServer

namespace NewsTicker

/-- A concrete headline used to instantiate the claims. -/
def sampleHeadline : Headline :=
  { source := "A", title := "T1", url := "u1", ts := 0 }

/-- The rendered element for `sampleHeadline` at time 0. -/
def sampleItem : RenderedItem :=
  renderItem 0 sampleHeadline

/-- A widget that has rendered content earlier but currently holds an empty
`headlines` list (reachable: a successful fetch of an empty array leaves the
previous render in place). -/
def staleRenderState : TickerState :=
  { initState defaultOptions none with renderedItems := [sampleItem, sampleItem] }

/-- A widget holding exactly one headline. -/
def oneHeadlineState : TickerState :=
  { initState defaultOptions none with headlines := [sampleHeadline] }

/-- A widget whose content area is currently hidden. -/
def hiddenState : TickerState :=
  { initState defaultOptions none with contentHidden := true }

/-- A cache snapshot holding one headline, stamped at time 0. -/
def sampleSnapshot : CacheSnapshot :=
  { headlines := [sampleHeadline], timestamp := 0 }

theorem serviceCycle_length : serviceCycle.length = 5 := rfl

/-- `renderHeadlines` only touches the rendered list, the cache and the
scroll position. -/
theorem renderHeadlines_frame (now : Int) (s : TickerState) :
    (renderHeadlines now s).offlineMode = s.offlineMode ∧
    (renderHeadlines now s).offlineBadgeShown = s.offlineBadgeShown ∧
    (renderHeadlines now s).headlines = s.headlines ∧
    (renderHeadlines now s).currentServiceIndex = s.currentServiceIndex ∧
    (renderHeadlines now s).currentService = s.currentService ∧
    (renderHeadlines now s).isPaused = s.isPaused ∧
    (renderHeadlines now s).options = s.options ∧
    (renderHeadlines now s).tickerListPresent = s.tickerListPresent := by
  unfold renderHeadlines
  split <;> simp

/-- `loadFromCache` never touches the offline flags or the service
selection. -/
theorem loadFromCache_frame (now : Int) (s : TickerState) :
    (loadFromCache now s).offlineMode = s.offlineMode ∧
    (loadFromCache now s).offlineBadgeShown = s.offlineBadgeShown ∧
    (loadFromCache now s).currentServiceIndex = s.currentServiceIndex ∧
    (loadFromCache now s).currentService = s.currentService := by
  unfold loadFromCache
  cases hc : s.cache with
  | none => simp
  | some c =>
      dsimp only
      split
      · exact ⟨(renderHeadlines_frame now _).1, (renderHeadlines_frame now _).2.1,
          (renderHeadlines_frame now _).2.2.2.1, (renderHeadlines_frame now _).2.2.2.2.1⟩
      · simp

/-- `loadHeadlines` never touches the service selection. -/
theorem loadHeadlines_service_frame (now : Int) (r : FetchResult) (s : TickerState) :
    (loadHeadlines now r s).currentServiceIndex = s.currentServiceIndex ∧
    (loadHeadlines now r s).currentService = s.currentService := by
  cases r with
  | success hs =>
      exact ⟨(renderHeadlines_frame now _).2.2.2.1, (renderHeadlines_frame now _).2.2.2.2.1⟩
  | failure =>
      exact ⟨(loadFromCache_frame now _).2.2.1, (loadFromCache_frame now _).2.2.2⟩

/-- `cycleToNextService` advances the index by one modulo five. -/
theorem cycleToNextService_index (now : Int) (r : FetchResult) (s : TickerState) :
    (cycleToNextService now r s).currentServiceIndex = (s.currentServiceIndex + 1) % 5 := by
  unfold cycleToNextService
  rw [(loadHeadlines_service_frame now r _).1]
  simp [serviceCycle_length]

/-- `cycleToNextService` sets `currentService` from the advanced cycle
entry. -/
theorem cycleToNextService_service (now : Int) (r : FetchResult) (s : TickerState) :
    (cycleToNextService now r s).currentService =
      (serviceCycle.getD ((s.currentServiceIndex + 1) % 5) undefinedService).service := by
  unfold cycleToNextService
  rw [(loadHeadlines_service_frame now r _).2]
  simp [serviceCycle_length]

/-- `toggleTickerVisibility` flips the hidden bit and leaves the rest of the
engine state alone. -/
theorem toggleTickerVisibility_frame_aux (s : TickerState) :
    (toggleTickerVisibility s).contentHidden = !s.contentHidden ∧
    (toggleTickerVisibility s).headlines = s.headlines ∧
    (toggleTickerVisibility s).currentServiceIndex = s.currentServiceIndex ∧
    (toggleTickerVisibility s).currentService = s.currentService ∧
    (toggleTickerVisibility s).animationLive = s.animationLive ∧
    (toggleTickerVisibility s).isPaused = s.isPaused ∧
    (toggleTickerVisibility s).currentPosition = s.currentPosition ∧
    (toggleTickerVisibility s).renderedItems = s.renderedItems ∧
    (toggleTickerVisibility s).cache = s.cache ∧
    (toggleTickerVisibility s).refreshTimerLive = s.refreshTimerLive := by
  unfold toggleTickerVisibility
  split <;> simp_all

end NewsTicker

namespace NewsTicker

/-- C2: after `destroy()` the pending animation step is cancelled, but the
5-minute refresh interval registered in `init` is never cleared (its handle
was discarded), so the periodic `loadHeadlines()` trigger stays live — the
code diverges from the claim on the timer half. -/
theorem destroy_cancels_animation_but_not_timer :
    (destroy (initState defaultOptions none)).animationLive = false ∧
    (destroy (initState defaultOptions none)).refreshTimerLive = true :=
  ⟨rfl, rfl⟩

/-- C4: starting from any index below 5 whose `currentService` matches the
cycle entry, five single-activation advances (whatever each triggered fetch
returns) restore `currentServiceIndex` and `currentService`. -/
theorem serviceCycle_closure (s : TickerState)
    (h : s.currentServiceIndex < 5)
    (hsvc : s.currentService =
      (serviceCycle.getD s.currentServiceIndex undefinedService).service)
    (n1 n2 n3 n4 n5 : Int) (r1 r2 r3 r4 r5 : FetchResult) :
    (cycleToNextService n5 r5 (cycleToNextService n4 r4 (cycleToNextService n3 r3
        (cycleToNextService n2 r2 (cycleToNextService n1 r1 s))))).currentServiceIndex =
      s.currentServiceIndex ∧
    (cycleToNextService n5 r5 (cycleToNextService n4 r4 (cycleToNextService n3 r3
        (cycleToNextService n2 r2 (cycleToNextService n1 r1 s))))).currentService =
      s.currentService := by
  have hidx : (((((s.currentServiceIndex + 1) % 5 + 1) % 5 + 1) % 5 + 1) % 5 + 1) % 5 =
      s.currentServiceIndex := by omega
  constructor
  · simp only [cycleToNextService_index]
    exact hidx
  · rw [cycleToNextService_service, cycleToNextService_index, cycleToNextService_index,
      cycleToNextService_index, cycleToNextService_index, hidx, ← hsvc]

/-- C4 witness: five advances from the initial `sports` state return to
index 0 and service `sports`. -/
theorem serviceCycle_closure_witness :
    (cycleToNextService 0 .failure (cycleToNextService 0 .failure (cycleToNextService 0 .failure
        (cycleToNextService 0 .failure (cycleToNextService 0 .failure
          (initState defaultOptions none)))))).currentServiceIndex =
      (initState defaultOptions none).currentServiceIndex :=
  (serviceCycle_closure (initState defaultOptions none) (by decide) rfl
    0 0 0 0 0 .failure .failure .failure .failure .failure).1

/-- C5: while the content is hidden, a single activation of the selector
only toggles visibility and keeps `currentServiceIndex`; a double
activation keeps `currentServiceIndex` in every state. -/
theorem selectorActivation_keeps_index (now : Int) (result : FetchResult)
    (s : TickerState) (h : s.contentHidden = true) :
    handleServiceButtonClick now result s = toggleTickerVisibility s ∧
    (handleServiceButtonClick now result s).currentServiceIndex = s.currentServiceIndex ∧
    (∀ t : TickerState,
      (handleServiceButtonDblClick t).currentServiceIndex = t.currentServiceIndex) := by
  have he : handleServiceButtonClick now result s = toggleTickerVisibility s := by
    unfold handleServiceButtonClick
    rw [h]
    simp
  refine ⟨he, ?_, ?_⟩
  · rw [he]
    exact (toggleTickerVisibility_frame_aux s).2.2.1
  · intro t
    exact (toggleTickerVisibility_frame_aux t).2.2.1

/-- C5 witness: clicking the selector of a hidden widget keeps index 0. -/
theorem selectorActivation_keeps_index_witness :
    (handleServiceButtonClick 0 .failure hiddenState).currentServiceIndex =
      hiddenState.currentServiceIndex :=
  (selectorActivation_keeps_index 0 .failure hiddenState rfl).2.1

/-- C8: every visibility toggle flips exactly the hidden bit and leaves the
headlines, the service index, and the animation loop (its pending step and
its pause flag) untouched. -/
theorem toggleTickerVisibility_frame (s : TickerState) :
    (toggleTickerVisibility s).contentHidden = !s.contentHidden ∧
    (toggleTickerVisibility s).headlines = s.headlines ∧
    (toggleTickerVisibility s).currentServiceIndex = s.currentServiceIndex ∧
    (toggleTickerVisibility s).animationLive = s.animationLive ∧
    (toggleTickerVisibility s).isPaused = s.isPaused ∧
    (toggleTickerVisibility s).currentPosition = s.currentPosition :=
  ⟨(toggleTickerVisibility_frame_aux s).1, (toggleTickerVisibility_frame_aux s).2.1,
    (toggleTickerVisibility_frame_aux s).2.2.1, (toggleTickerVisibility_frame_aux s).2.2.2.2.1,
    (toggleTickerVisibility_frame_aux s).2.2.2.2.2.1,
    (toggleTickerVisibility_frame_aux s).2.2.2.2.2.2.1⟩

/-- C10: with an empty `headlines` list, `renderHeadlines()` is a complete
no-op on the state, and a successful fetch of an empty array keeps the
previous rendered items, the scroll position and the cache snapshot. -/
theorem renderHeadlines_empty_noop (now : Int) (s : TickerState)
    (h : s.headlines = []) :
    renderHeadlines now s = s ∧
    (loadHeadlines now (.success []) s).renderedItems = s.renderedItems ∧
    (loadHeadlines now (.success []) s).currentPosition = s.currentPosition ∧
    (loadHeadlines now (.success []) s).cache = s.cache := by
  constructor
  · unfold renderHeadlines
    rw [h]
    simp
  · unfold loadHeadlines renderHeadlines
    simp

/-- C10 witness: the freshly initialized widget (empty headlines, two
previously rendered items in `staleRenderState`) is untouched by
`renderHeadlines`. -/
theorem renderHeadlines_empty_noop_witness :
    renderHeadlines 0 staleRenderState = staleRenderState :=
  (renderHeadlines_empty_noop 0 staleRenderState rfl).1

end NewsTicker

namespace NewsTicker

/-- The early-return guard of `renderHeadlines` is false exactly when the
list element exists and `headlines` is non-empty. -/
theorem renderHeadlines_guard_false (s : TickerState)
    (hp : s.tickerListPresent = true) (hne : s.headlines ≠ []) :
    (!s.tickerListPresent || s.headlines.length == 0) = false := by
  simp [hp, hne]

/-- On a non-empty list with the list element present, `renderHeadlines`
shows the duplicated sequence. -/
theorem renderHeadlines_render (now : Int) (s : TickerState)
    (hp : s.tickerListPresent = true) (hne : s.headlines ≠ []) :
    (renderHeadlines now s).renderedItems =
      s.headlines.map (renderItem now) ++ s.headlines.map (renderItem now) := by
  unfold renderHeadlines
  rw [renderHeadlines_guard_false s hp hne]
  simp

/-- A fresh snapshot (< 1 h old) makes `loadFromCache` adopt and render the
cached headlines. -/
theorem loadFromCache_some_fresh (now : Int) (s : TickerState) (c : CacheSnapshot)
    (hc : s.cache = some c) (hfresh : now - c.timestamp < 3600000) :
    loadFromCache now s = renderHeadlines now { s with headlines := c.headlines } := by
  unfold loadFromCache
  rw [hc]
  simp [hfresh]

/-- A stale snapshot (≥ 1 h old) leaves the state untouched. -/
theorem loadFromCache_some_stale (now : Int) (s : TickerState) (c : CacheSnapshot)
    (hc : s.cache = some c) (hstale : 3600000 ≤ now - c.timestamp) :
    loadFromCache now s = s := by
  unfold loadFromCache
  rw [hc]
  dsimp only
  rw [if_neg (not_lt.mpr hstale)]

/-- An absent snapshot leaves the state untouched. -/
theorem loadFromCache_none (now : Int) (s : TickerState) (hc : s.cache = none) :
    loadFromCache now s = s := by
  unfold loadFromCache
  rw [hc]

/-- An unpaused step with no wraparound decrements the position by
`speed / 60`. -/
theorem animateStep_unpaused_pos (w : ℚ) (s : TickerState) (hp : s.isPaused = false)
    (hres : |s.currentPosition - s.options.speed / 60| < w) :
    (animateStep w s).currentPosition = s.currentPosition - s.options.speed / 60 := by
  unfold animateStep
  rw [hp]
  simp only [Bool.false_eq_true, if_false]
  rw [if_neg (not_le.mpr hres)]

/-- One animation step never touches the pause flag or the options. -/
theorem animateStep_frame (w : ℚ) (s : TickerState) :
    (animateStep w s).isPaused = s.isPaused ∧ (animateStep w s).options = s.options := by
  unfold animateStep
  split <;> simp

/-- Iterated unpaused steps at `speed = 60` with no wraparound decrement the
position by one pixel per step. -/
theorem animateSteps_unpaused (w : ℚ) (n : Nat) :
    ∀ s : TickerState, s.isPaused = false → s.options.speed = 60 →
    (∀ k : Nat, 1 ≤ k → k ≤ n → |s.currentPosition - (k : ℚ)| < w) →
    (animateSteps w n s).currentPosition = s.currentPosition - (n : ℚ) := by
  induction n with
  | zero =>
      intro s _ _ _
      simp [animateSteps]
  | succ n ih =>
      intro s hp hsp hres
      have hsp1 : s.options.speed / 60 = 1 := by rw [hsp]; norm_num
      have h1 : |s.currentPosition - s.options.speed / 60| < w := by
        rw [hsp1]
        have := hres 1 le_rfl (by omega)
        simpa using this
      have hstep : (animateStep w s).currentPosition = s.currentPosition - 1 := by
        rw [animateStep_unpaused_pos w s hp h1, hsp1]
      have hframe := animateStep_frame w s
      show (animateSteps w n (animateStep w s)).currentPosition = _
      rw [ih (animateStep w s) (by rw [hframe.1, hp]) (by rw [hframe.2, hsp]) ?_, hstep]
      · push_cast
        ring
      · intro k hk1 hkn
        rw [hstep]
        have := hres (k + 1) (by omega) (by omega)
        push_cast at this
        rwa [show s.currentPosition - 1 - (k : ℚ) = s.currentPosition - ((k : ℚ) + 1) from by
          ring]

/-- `formatTimeAgo` depends only on the difference `now - ts`. -/
theorem formatTimeAgo_shift (now ts d : Int) (h : now - ts = d) :
    formatTimeAgo now ts = formatTimeAgo d 0 := by
  unfold formatTimeAgo
  rw [h]
  simp

end NewsTicker

namespace NewsTicker

/-- C1: when a fetch fails, `loadHeadlines` sets `offlineMode`, shows the
offline badge, and falls back to the cache: a snapshot under one hour old
replaces `headlines` with the cached sequence and re-renders it (the
duplicated item list for any non-empty cached sequence, which is the only
kind `saveToCache` writes); an absent or ≥ 1 h old snapshot leaves the
headlines, the rendered content and the scroll position unchanged while
`offlineMode` still becomes true. -/
theorem loadHeadlines_failure_spec (now : Int) (s : TickerState)
    (hp : s.tickerListPresent = true) :
    ((loadHeadlines now .failure s).offlineMode = true ∧
      (loadHeadlines now .failure s).offlineBadgeShown = true) ∧
    (∀ c : CacheSnapshot, s.cache = some c → now - c.timestamp < 3600000 →
      (loadHeadlines now .failure s).headlines = c.headlines ∧
      (c.headlines ≠ [] →
        (loadHeadlines now .failure s).renderedItems =
          c.headlines.map (renderItem now) ++ c.headlines.map (renderItem now))) ∧
    (s.cache = none →
      (loadHeadlines now .failure s).headlines = s.headlines ∧
      (loadHeadlines now .failure s).renderedItems = s.renderedItems ∧
      (loadHeadlines now .failure s).currentPosition = s.currentPosition) ∧
    (∀ c : CacheSnapshot, s.cache = some c → 3600000 ≤ now - c.timestamp →
      (loadHeadlines now .failure s).headlines = s.headlines ∧
      (loadHeadlines now .failure s).renderedItems = s.renderedItems ∧
      (loadHeadlines now .failure s).currentPosition = s.currentPosition) := by
  refine ⟨?_, ?_, ?_, ?_⟩
  · exact ⟨(loadFromCache_frame now
        { s with offlineMode := true, offlineBadgeShown := true }).1,
      (loadFromCache_frame now
        { s with offlineMode := true, offlineBadgeShown := true }).2.1⟩
  · intro c hc hfresh
    have e : loadHeadlines now .failure s =
        renderHeadlines now
          { s with offlineMode := true, offlineBadgeShown := true,
                   headlines := c.headlines } :=
      loadFromCache_some_fresh now
        { s with offlineMode := true, offlineBadgeShown := true } c hc hfresh
    constructor
    · rw [e]
      exact (renderHeadlines_frame now _).2.2.1
    · intro hne
      rw [e]
      exact renderHeadlines_render now
        { s with offlineMode := true, offlineBadgeShown := true,
                 headlines := c.headlines } hp hne
  · intro hc
    have e : loadHeadlines now .failure s =
        { s with offlineMode := true, offlineBadgeShown := true } :=
      loadFromCache_none now { s with offlineMode := true, offlineBadgeShown := true } hc
    rw [e]
    exact ⟨rfl, rfl, rfl⟩
  · intro c hc hstale
    have e : loadHeadlines now .failure s =
        { s with offlineMode := true, offlineBadgeShown := true } :=
      loadFromCache_some_stale now
        { s with offlineMode := true, offlineBadgeShown := true } c hc hstale
    rw [e]
    exact ⟨rfl, rfl, rfl⟩

/-- C1 witness: a fetch failure 30 minutes after the snapshot was written
adopts the cached headline. -/
theorem loadHeadlines_failure_spec_witness :
    (loadHeadlines 1800000 .failure
        (initState defaultOptions (some sampleSnapshot))).headlines =
      sampleSnapshot.headlines :=
  ((loadHeadlines_failure_spec 1800000 (initState defaultOptions (some sampleSnapshot))
      rfl).2.1 sampleSnapshot rfl (by decide)).1

/-- C3 counterexample: with an empty `headlines` list (length 0 ≤
`maxHeadlines`) and two previously rendered items, `renderHeadlines` leaves
the two items in place rather than producing 2 · 0 = 0 items. -/
theorem renderHeadlines_duplication_counterexample :
    staleRenderState.headlines.length ≤ staleRenderState.options.maxHeadlines ∧
    (renderHeadlines 0 staleRenderState).renderedItems.length = 2 ∧
    (renderHeadlines 0 staleRenderState).renderedItems.length ≠
      2 * staleRenderState.headlines.length := by
  decide

/-- C3 (amended): for every NON-EMPTY headlines list of length
N ≤ `maxHeadlines` (with the list element present), `renderHeadlines`
produces exactly 2N items — the full sequence appended twice in order —
while an empty list is a no-op; and every fetched list is truncated to the
first `maxHeadlines` records before rendering, so a fetch longer than
`maxHeadlines` leaves exactly `maxHeadlines` headlines. -/
theorem renderHeadlines_duplication (now : Int) (s : TickerState)
    (hp : s.tickerListPresent = true) (hne : s.headlines ≠ []) :
    (renderHeadlines now s).renderedItems =
      s.headlines.map (renderItem now) ++ s.headlines.map (renderItem now) ∧
    (renderHeadlines now s).renderedItems.length = 2 * s.headlines.length ∧
    (∀ fetched : List Headline,
      (loadHeadlines now (.success fetched) s).headlines =
        fetched.take s.options.maxHeadlines ∧
      (s.options.maxHeadlines < fetched.length →
        (loadHeadlines now (.success fetched) s).headlines.length =
          s.options.maxHeadlines)) := by
  have hdup := renderHeadlines_render now s hp hne
  refine ⟨hdup, ?_, ?_⟩
  · rw [hdup]
    simp [two_mul]
  · intro fetched
    have hload : (loadHeadlines now (.success fetched) s).headlines =
        fetched.take s.options.maxHeadlines := by
      show ({ renderHeadlines now _ with lastUpdate := now } : TickerState).headlines = _
      rw [show ({ renderHeadlines now
            { s with headlines := fetched.take s.options.maxHeadlines,
                     offlineMode := false, offlineBadgeShown := false }
            with lastUpdate := now } : TickerState).headlines =
          (renderHeadlines now
            { s with headlines := fetched.take s.options.maxHeadlines,
                     offlineMode := false, offlineBadgeShown := false }).headlines from rfl,
        (renderHeadlines_frame now _).2.2.1]
    refine ⟨hload, fun hlt => ?_⟩
    rw [hload, List.length_take]
    omega

/-- C3 witness: one headline renders as exactly two items. -/
theorem renderHeadlines_duplication_witness :
    (renderHeadlines 0 oneHeadlineState).renderedItems.length =
      2 * oneHeadlineState.headlines.length :=
  (renderHeadlines_duplication 0 oneHeadlineState rfl (by decide)).2.1

/-- C6: for timestamps not in the future, `formatTimeAgo` returns `now`
under one minute, whole minutes under one hour, whole hours under one day,
whole days beyond; in particular 0 ms → `now`, 90 s → `1m ago`, 2 h →
`2h ago`, 2 d → `2d ago`. -/
theorem formatTimeAgo_spec (now ts : Int) (h : ts ≤ now) :
    (now - ts < 60000 → formatTimeAgo now ts = "now") ∧
    (60000 ≤ now - ts → now - ts < 3600000 →
      formatTimeAgo now ts = toString (Int.fdiv (now - ts) 60000) ++ "m ago") ∧
    (3600000 ≤ now - ts → now - ts < 86400000 →
      formatTimeAgo now ts = toString (Int.fdiv (now - ts) 3600000) ++ "h ago") ∧
    (86400000 ≤ now - ts →
      formatTimeAgo now ts = toString (Int.fdiv (now - ts) 86400000) ++ "d ago") ∧
    formatTimeAgo now now = "now" ∧
    formatTimeAgo now (now - 90000) = "1m ago" ∧
    formatTimeAgo now (now - 7200000) = "2h ago" ∧
    formatTimeAgo now (now - 172800000) = "2d ago" := by
  have e1 : Int.fdiv (now - ts) 60000 = (now - ts) / 60000 :=
    Int.fdiv_eq_ediv _ (by norm_num)
  have e2 : Int.fdiv (now - ts) 3600000 = (now - ts) / 3600000 :=
    Int.fdiv_eq_ediv _ (by norm_num)
  have e3 : Int.fdiv (now - ts) 86400000 = (now - ts) / 86400000 :=
    Int.fdiv_eq_ediv _ (by norm_num)
  refine ⟨?_, ?_, ?_, ?_, ?_, ?_, ?_, ?_⟩
  · intro h1
    simp only [formatTimeAgo, e1, e2, e3]
    split_ifs with g1 g2 g3 <;> first | rfl | omega
  · intro h1 h2
    simp only [formatTimeAgo, e1, e2, e3]
    split_ifs with g1 g2 g3 <;> first | rfl | omega
  · intro h1 h2
    simp only [formatTimeAgo, e1, e2, e3]
    split_ifs with g1 g2 g3 <;> first | rfl | omega
  · intro h1
    simp only [formatTimeAgo, e1, e2, e3]
    split_ifs with g1 g2 g3 <;> first | rfl | omega
  · rw [formatTimeAgo_shift now now 0 (by omega)]
    decide
  · rw [formatTimeAgo_shift now (now - 90000) 90000 (by omega)]
    decide
  · rw [formatTimeAgo_shift now (now - 7200000) 7200000 (by omega)]
    decide
  · rw [formatTimeAgo_shift now (now - 172800000) 172800000 (by omega)]
    decide

/-- C6 witness: two full days ago formats as `2d ago`. -/
theorem formatTimeAgo_spec_witness :
    formatTimeAgo 172800000 (172800000 - 172800000) = "2d ago" :=
  (formatTimeAgo_spec 172800000 0 (by decide)).2.2.2.2.2.2.2

/-- C7: a paused step leaves the state unchanged; an unpaused step with no
wraparound decrements `currentPosition` by `speed / 60`; at `speed = 60`,
60 unpaused steps with no wraparound decrease it by exactly 60 pixels. -/
theorem animationStep_spec (w : ℚ) (s : TickerState) :
    (s.isPaused = true → animateStep w s = s) ∧
    (s.isPaused = false → |s.currentPosition - s.options.speed / 60| < w →
      (animateStep w s).currentPosition = s.currentPosition - s.options.speed / 60) ∧
    (s.isPaused = false → s.options.speed = 60 →
      (∀ k : Nat, 1 ≤ k → k ≤ 60 → |s.currentPosition - (k : ℚ)| < w) →
      (animateSteps w 60 s).currentPosition = s.currentPosition - 60) := by
  refine ⟨?_, animateStep_unpaused_pos w s, ?_⟩
  · intro hp
    unfold animateStep
    rw [hp]
    simp
  · intro hp hsp hres
    have := animateSteps_unpaused w 60 s hp hsp hres
    norm_num at this
    exact this

/-- C7 witness: from the initial state with a 1000 px half width, 60 steps
move the position from 0 to −60. -/
theorem animationStep_spec_witness :
    (animateSteps 1000 60 (initState defaultOptions none)).currentPosition =
      (initState defaultOptions none).currentPosition - 60 :=
  (animationStep_spec 1000 (initState defaultOptions none)).2.2 rfl rfl (by
    intro k h1 h60
    show |(0 : ℚ) - (k : ℚ)| < 1000
    rw [zero_sub, abs_neg, abs_of_nonneg (by positivity)]
    have hk : (k : ℚ) ≤ 60 := by exact_mod_cast h60
    exact lt_of_le_of_lt hk (by norm_num))

end NewsTicker

namespace NewsServer

/-- C9: with a non-empty `q`, the news endpoint returns exactly the
source-selected list (the response of the same request without `q`)
filtered, in order, to the records whose title or source contains `q`
case-insensitively. -/
theorem newsRequest_query_filter (serviceParam : Option String) (q : String)
    (sources : String → Option (List NewsTicker.Headline))
    (mainNews : List NewsTicker.Headline) (hq : q ≠ "") :
    handleNewsRequest serviceParam (some q) sources mainNews =
      (handleNewsRequest serviceParam none sources mainNews).filter (matchesQuery q) ∧
    List.Sublist (handleNewsRequest serviceParam (some q) sources mainNews)
      (handleNewsRequest serviceParam none sources mainNews) ∧
    (∀ h : NewsTicker.Headline,
      h ∈ handleNewsRequest serviceParam (some q) sources mainNews ↔
        h ∈ handleNewsRequest serviceParam none sources mainNews ∧
          matchesQuery q h = true) := by
  have he : handleNewsRequest serviceParam (some q) sources mainNews =
      (handleNewsRequest serviceParam none sources mainNews).filter (matchesQuery q) := by
    unfold handleNewsRequest
    simp [hq]
  refine ⟨he, ?_, ?_⟩
  · rw [he]
    exact List.filter_sublist _
  · intro hd
    rw [he]
    simp [List.mem_filter]

/-- C9 witness: querying `t` over the one-headline main list filters it in
place. -/
theorem newsRequest_query_filter_witness :
    handleNewsRequest none (some "t") (fun _ => none) [NewsTicker.sampleHeadline] =
      (handleNewsRequest none none (fun _ => none) [NewsTicker.sampleHeadline]).filter
        (matchesQuery "t") :=
  (newsRequest_query_filter none "t" (fun _ => none) [NewsTicker.sampleHeadline]
    (by decide)).1

end NewsServer
